import Mathlib

/-!
# mern-social-network: the REST handlers over an in-memory document store

A shallow embedding of `routes/api/auth.js`, `routes/api/users.js`,
`routes/api/posts.js` and `routes/api/profile.js`.

* A collection of the document database is a list of documents in insertion
  order; `findOne` / `findById` return the first match.
* Every library call a handler makes (the database driver, bcryptjs, gravatar,
  config, validator.js, the signing of jsonwebtoken) is a field of `Env`, and
  each may throw: a thrown value is `Except.error`. What `jwt.sign` and
  `jwt.verify` do with the expiry is `jwtSign` and `jwtVerify`.
* A handler maps the request and the store to the response it sends and the
  store it leaves.  The `try { ... } catch (err) { ... }` of a handler is a
  `match` on the `Except` value of its body.
* A request body is a JSON object whose fields are scalars: a string, a whole
  number, a boolean or `null`; a field that is not sent reads as `none`
  (JavaScript `undefined`). Arrays, nested objects and fractions are left out.
-/

namespace MernSocial

/-! ## Data model -/

deriving instance DecidableEq for Except

/-- A thrown JavaScript error: its `message` and, for a mongoose `CastError`,
its `kind` (`'ObjectId'` when a route parameter is not an ObjectId). -/
structure Exn where
  message : String
  kind : Option String := none
deriving DecidableEq, Repr

/-- A document of the `user` collection (`models/User`): the fields the handlers
read and write. `id` is the string form of `_id`. -/
structure User where
  id : String
  name : String
  email : String
  avatar : String
  password : String
deriving DecidableEq, Repr

/-- A user document as `.select('-password')` returns it. -/
structure PublicUser where
  id : String
  name : String
  email : String
  avatar : String
deriving DecidableEq, Repr

/-- An entry of `post.likes`. -/
structure Like where
  user : String
deriving DecidableEq, Repr

/-- An entry of `post.comments`. -/
structure Comment where
  id : String
  user : String
  text : String
  name : String
  avatar : String
deriving DecidableEq, Repr

/-- A document of the `post` collection (`models/Post`). `user` is the owner. -/
structure Post where
  id : String
  user : String
  text : String
  name : String
  avatar : String
  likes : List Like
  comments : List Comment
deriving DecidableEq, Repr

/-- An entry of `profile.experience`. -/
structure Experience where
  id : String
  title : String
  company : String
deriving DecidableEq, Repr

/-- An entry of `profile.education`. -/
structure Education where
  id : String
  school : String
  degree : String
deriving DecidableEq, Repr

/-- A document of the `profile` collection (`models/Profile`). -/
structure Profile where
  id : String
  user : String
  experience : List Experience
  education : List Education
deriving DecidableEq, Repr

/-- The document database: its three collections. -/
structure Store where
  users : List User
  profiles : List Profile
  posts : List Post
deriving DecidableEq, Repr

/-- The object `jwt.sign` is given: `{user: {id}}`. -/
structure Payload where
  userId : String
deriving DecidableEq, Repr

/-- What an access token encodes (section 3 of the specification): the user id,
the instant of issue and the instant of expiry, in seconds. -/
structure Claims where
  userId : String
  issuedAt : Nat
  expiresAt : Nat
deriving DecidableEq, Repr

/-- A scalar JSON value of a request body. -/
inductive JsVal where
  | str (s : String)
  | num (n : Int)
  | bool (b : Bool)
  | null
deriving DecidableEq, Repr

/-- A field of a request body cast to a string, as mongoose casts a value for a
`String` path and as `String(value)` does: `null` and `undefined` have no
string. -/
def castString (v : Option JsVal) : Option String :=
  match v with
  | some (.str s) => some s
  | some (.num n) => some (toString n)
  | some (.bool b) => some (if b then "true" else "false")
  | some .null => none
  | none => none

/-- The string express-validator hands to a validator: the value cast to a string,
the empty string for `null` and `undefined`. -/
def jsToString (v : Option JsVal) : String := (castString v).getD ""

/-- An entry of an `errors` array: `{msg}` as the handlers build it, with
`param`, `location` and `value` as express-validator's `errors.array()` does. -/
structure ErrorItem where
  msg : String
  param : Option String := none
  location : Option String := none
  value : Option JsVal := none
deriving DecidableEq, Repr

/-- What a handler sends. -/
inductive ResBody where
  /-- The body `{errors: [...]}`. -/
  | errors (es : List ErrorItem)
  /-- The body `{msg: m}`. -/
  | msg (m : String)
  /-- The body `{token}`. -/
  | token (t : String)
  /-- A plain text body, `res.send(s)`. -/
  | text (s : String)
  /-- The body of `res.json(user)`: `null` when no user was found. -/
  | user (u : Option PublicUser)
  /-- The body of `res.json(post)`. -/
  | post (p : Post)
  /-- The body of `res.json(post.likes)`. -/
  | likes (ls : List Like)
  /-- The body of `res.json(post.comments)`. -/
  | comments (cs : List Comment)
  /-- The body of `res.json(profile)`. -/
  | profile (p : Profile)
deriving DecidableEq, Repr

/-- An HTTP response: status (200 unless `res.status` was called) and body. -/
structure Response where
  status : Nat
  body : ResBody
deriving DecidableEq, Repr

/-- A JSON request body: its fields and their values. -/
abbrev ReqBody := List (String × JsVal)

/-- A call on the database driver, with its arguments. -/
inductive DbCall where
  | userFindOne (email : Option String)
  | userFindById (id : String)
  | userSave (u : User)
  | userFindOneAndRemove (id : String)
  | profileFindOne (user : String)
  | profileSave (p : Profile)
  | profileFindOneAndRemove (user : String)
  | postFindById (id : String)
  | postSave (p : Post)
  | postRemove (p : Post)
deriving DecidableEq, Repr

/-- The libraries the handlers call. -/
structure Env where
  /-- The test `isEmail` of validator.js. -/
  isEmail : String → Bool
  /-- The error a database call throws, if it throws: a lost connection, or
  the `CastError` of an id that is no ObjectId. -/
  dbFault : DbCall → Option Exn
  /-- The `_id` mongoose gives the document constructed in this request. -/
  newObjectId : String
  /-- The function `gravatar.url(email, options)`. -/
  gravatarUrl : String → Except Exn String
  /-- The function `bcrypt.genSalt(rounds)`. -/
  genSalt : Nat → Except Exn String
  /-- The function `bcrypt.hash(plaintext, salt)`. -/
  hash : String → String → Except Exn String
  /-- The function `bcrypt.compare(plaintext, hash)`. -/
  compare : String → String → Except Exn Bool
  /-- The function `config.get(key)`. -/
  configGet : String → Except Exn String
  /-- The clock, in seconds. -/
  now : Nat
  /-- The signing of `jwt.sign`: the token made of the claims and the secret, or
  the error. -/
  signClaims : Claims → String → Except Exn String
  /-- The signature check of `jwt.verify`: the claims a token carries under the
  secret, or the error of a token that was not signed with it. -/
  verifyClaims : String → String → Except Exn Claims

/-! ## jsonwebtoken -/

/-- Modelled from the spec: `jwt.sign(payload, secret, {expiresIn}, callback)` of
jsonwebtoken is not among the sources. Sections 3 and 4.2: the token encodes
the user id of the payload, the instant of issue and the instant of expiry,
which is `now + expiresIn` with `expiresIn` a number of seconds, and is signed
with the secret. The value is the error or the token the callback receives; the
callback runs before `jwt.sign` returns, as it does when jsonwebtoken rejects its
arguments (a missing secret), so that what the callback throws is thrown inside
the `try` block of the handler. -/
def jwtSign (env : Env) (payload : Payload) (secret : String) (expiresIn : Nat) :
    Except Exn String :=
  env.signClaims
    { userId := payload.userId, issuedAt := env.now, expiresAt := env.now + expiresIn } secret

/-- Modelled from the spec: `jwt.verify(token, secret)` of jsonwebtoken is not among
the sources. Section 4.3: a token whose signature does not match the secret is
rejected, and so is a token whose instant of expiry is past (`now > expires_at`);
otherwise the payload that was signed is returned. -/
def jwtVerify (env : Env) (token secret : String) : Except Exn Payload := do
  let claims ← env.verifyClaims token secret
  if env.now > claims.expiresAt then
    .error { message := "jwt expired" }
  else
    pure { userId := claims.userId }

/-! ## Database operations -/

/-- Throw what the driver throws on this call, if anything. -/
def dbGuard (env : Env) (c : DbCall) : Except Exn Unit :=
  match env.dbFault c with
  | some e => .error e
  | none => .ok ()

/-- The query `User.findOne({email})`: the value is cast to a string, the type of
the path. -/
def userFindOne (env : Env) (s : Store) (email : Option JsVal) : Except Exn (Option User) := do
  dbGuard env (.userFindOne (castString email))
  pure (s.users.find? (fun u => some u.email == castString email))

/-- The query `User.findById(id)`. -/
def userFindById (env : Env) (s : Store) (id : String) : Except Exn (Option User) := do
  dbGuard env (.userFindById id)
  pure (s.users.find? (fun u => u.id == id))

/-- The call `user.save()` on a new document: an insert, which the unique index on
`_id` rejects when the id is taken. -/
def userSave (env : Env) (s : Store) (u : User) : Except Exn Store := do
  dbGuard env (.userSave u)
  if s.users.any (fun v => v.id == u.id) then
    .error { message := "E11000 duplicate key error" }
  else
    pure { s with users := s.users ++ [u] }

/-- The projection `.select('-password')`. -/
def selectMinusPassword (u : User) : PublicUser :=
  { id := u.id, name := u.name, email := u.email, avatar := u.avatar }

/-! ## Validation (express-validator) -/

/-- One `check(field, msg)` chain with a single validator on the value of the
field: a field that was not sent reads as `none`. -/
structure Check where
  field : String
  msg : String
  passes : Option JsVal → Bool

/-- The array `validationResult(req).array()`: one entry for each check that fails, in the
order of the checks. -/
def validationResult (checks : List Check) (body : ReqBody) : List ErrorItem :=
  checks.filterMap (fun c =>
    if c.passes (body.lookup c.field) then none
    else some { msg := c.msg, param := some c.field, location := some "body",
                value := body.lookup c.field })

/-- The validator `.isEmail()`: the field, as a string, is an email address. -/
def isEmailCheck (env : Env) (v : Option JsVal) : Bool := env.isEmail (jsToString v)

/-- The validator `.exists()`: the field is not `undefined`. -/
def existsCheck (v : Option JsVal) : Bool := v.isSome

/-- The validator `.not().isEmpty()`: the field, as a string, has a character. -/
def notEmptyCheck (v : Option JsVal) : Bool := !((jsToString v).length == 0)

/-- The validator `.isLength({min})`: the field, as a string, has `min` characters or more. -/
def isLengthMinCheck (min : Nat) (v : Option JsVal) : Bool :=
  decide (min ≤ (jsToString v).length)

/-- The checks of `POST api/auth`. -/
def loginChecks (env : Env) : List Check :=
  [ { field := "email", msg := "Please include a valid email", passes := isEmailCheck env },
    { field := "password", msg := "Password is Required", passes := existsCheck } ]

/-- The checks of `POST api/users`. -/
def registerChecks (env : Env) : List Check :=
  [ { field := "name", msg := "Name is required", passes := notEmptyCheck },
    { field := "email", msg := "Please include a valid email", passes := isEmailCheck env },
    { field := "password", msg := "Please enter a password with six or more characters",
      passes := isLengthMinCheck 6 } ]

/-! ## routes/api/auth.js -/

/-- A string argument of a bcryptjs or gravatar call: a value that is not a string
(`undefined`, `null`, a number, a boolean) makes the call throw, as
`bcrypt.compare` and `bcrypt.hash` do with `Illegal arguments`. -/
def stringArg (v : Option JsVal) : Except Exn String :=
  match v with
  | some (.str s) => .ok s
  | _ => .error { message := "Illegal arguments" }

/-- A required `String` path of a document: the value is cast to a string, and
`save()` throws a validation error when there is none. -/
def requiredPath (v : Option JsVal) : Except Exn String :=
  match castString v with
  | some s => .ok s
  | none => .error { message := "validation failed: path is required" }

/-- The body of the `try` block of `POST api/auth`. -/
def loginTry (env : Env) (s : Store) (body : ReqBody) : Except Exn Response := do
  let email := body.lookup "email"
  let password := body.lookup "password"
  let user ← userFindOne env s email
  match user with
  | none => pure { status := 400, body := .errors [{ msg := "Invalid Credentials" }] }
  | some user =>
    let isMatch ← (stringArg password >>= fun p => env.compare p user.password)
    if !isMatch then
      pure { status := 400, body := .errors [{ msg := "Invalid Credentials" }] }
    else
      let payload : Payload := { userId := user.id }
      let secret ← env.configGet "jwtSecret"
      let token ← jwtSign env payload secret 360000
      pure { status := 200, body := .token token }

/-- The handler `POST api/auth`: authenticate a user and get a token. -/
def login (env : Env) (s : Store) (body : ReqBody) : Response × Store :=
  let errors := validationResult (loginChecks env) body
  if !errors.isEmpty then
    ({ status := 400, body := .errors errors }, s)
  else
    match loginTry env s body with
    | .ok res => (res, s)
    | .error _ => ({ status := 500, body := .text "Server error" }, s)

/-- The handler of `GET api/auth`, behind the gate: the user of `req.user.id`,
without the password. -/
def getAuth (env : Env) (s : Store) (userId : String) : Response × Store :=
  match userFindById env s userId with
  | .ok user => ({ status := 200, body := .user (user.map selectMinusPassword) }, s)
  | .error _ => ({ status := 500, body := .text "Server Error" }, s)

/-- Modelled from the spec: `middleware/auth.js`, the gate in front of every
private route, is not among the sources. Section 4.3: a request without the
token header is rejected with 401 "no token, authorization denied"; a token that
does not verify against the server secret (bad signature, corrupt, expired) is
rejected with 401 "token is not valid"; otherwise the user id of the signed
payload is attached to the request and the handler runs. -/
def auth (env : Env) (token : Option String) : Except Response String :=
  match token with
  | none => .error { status := 401, body := .msg "no token, authorization denied" }
  | some t =>
    match env.configGet "jwtSecret" >>= jwtVerify env t with
    | .ok decoded => .ok decoded.userId
    | .error _ => .error { status := 401, body := .msg "token is not valid" }

/-- The route `GET api/auth`, `router.get('/', auth, handler)`: the middleware
`gate` sees the token header and either answers itself or attaches the user id
for the handler. -/
def getAuthRoute (gate : Option String → Except Response String) (env : Env) (s : Store)
    (token : Option String) : Response × Store :=
  match gate token with
  | .error res => (res, s)
  | .ok userId => getAuth env s userId

/-! ## routes/api/users.js -/

/-- The document `POST api/users` builds before it saves: the gravatar of the
email, `new User({name, email, avatar, password})`, then the password replaced
by `bcrypt.hash(password, await bcrypt.genSalt(10))`. -/
def newUser (env : Env) (name email password : Option JsVal) : Except Exn User := do
  let avatar ← (stringArg email >>= env.gravatarUrl)
  let salt ← env.genSalt 10
  let hashed ← (stringArg password >>= fun p => env.hash p salt)
  let name ← requiredPath name
  let email ← requiredPath email
  pure { id := env.newObjectId, name := name, email := email, avatar := avatar,
         password := hashed }

/-- The body of the `try` block of `POST api/users`, with the store it leaves:
what throws after `user.save()` leaves the saved user in the store. -/
def registerTry (env : Env) (s : Store) (body : ReqBody) : Except Exn Response × Store :=
  let name := body.lookup "name"
  let email := body.lookup "email"
  let password := body.lookup "password"
  match userFindOne env s email with
  | .error e => (.error e, s)
  | .ok (some _) =>
    (.ok { status := 400, body := .errors [{ msg := "User already exists" }] }, s)
  | .ok none =>
    match newUser env name email password with
    | .error e => (.error e, s)
    | .ok user =>
      match userSave env s user with
      | .error e => (.error e, s)
      | .ok s' =>
        let payload : Payload := { userId := user.id }
        (do let secret ← env.configGet "jwtSecret"
            let token ← jwtSign env payload secret 360000
            pure { status := 200, body := .token token }, s')

/-- The handler `POST api/users`: register a user. -/
def register (env : Env) (s : Store) (body : ReqBody) : Response × Store :=
  let errors := validationResult (registerChecks env) body
  if !errors.isEmpty then
    ({ status := 400, body := .errors errors }, s)
  else
    match registerTry env s body with
    | (.ok res, s') => (res, s')
    | (.error _, s') => ({ status := 500, body := .text "Server error" }, s')

/-! ## routes/api/posts.js -/

/-- Reading a property of what a query returned: reading one of `null` throws a
`TypeError`. -/
def deref {α : Type} (doc : Option α) : Except Exn α :=
  match doc with
  | some d => .ok d
  | none => .error { message := "Cannot read properties of null" }

/-- Replace the first element that satisfies `p`. -/
def replaceFirst {α : Type} (p : α → Bool) (new : α) : List α → List α
  | [] => []
  | x :: xs => if p x then new :: xs else x :: replaceFirst p new xs

/-- The method `Array.prototype.indexOf`: the first index of `x`, or `-1`. -/
def jsIndexOf {α : Type} [BEq α] (xs : List α) (x : α) : Int :=
  if xs.indexOf x < xs.length then (xs.indexOf x : Int) else -1

/-- The call `xs.splice(start, 1)`: one element removed at `start`; a negative
`start` counts from the end of the array. -/
def splice1 {α : Type} (xs : List α) (start : Int) : List α :=
  let actualStart : Nat :=
    if start < 0 then xs.length - start.natAbs else min start.toNat xs.length
  xs.eraseIdx actualStart

/-- The query `Post.findById(id)`. -/
def postFindById (env : Env) (s : Store) (id : String) : Except Exn (Option Post) := do
  dbGuard env (.postFindById id)
  pure (s.posts.find? (fun p => p.id == id))

/-- The call `post.save()` on a document that was read from the store: the stored
document of that `_id` is replaced. -/
def postSave (env : Env) (s : Store) (post : Post) : Except Exn Store := do
  dbGuard env (.postSave post)
  pure { s with posts := replaceFirst (fun q => q.id == post.id) post s.posts }

/-- The call `post.remove()`: the stored document of that `_id` is deleted. -/
def postRemove (env : Env) (s : Store) (post : Post) : Except Exn Store := do
  dbGuard env (.postRemove post)
  pure { s with posts := s.posts.eraseP (fun q => q.id == post.id) }

/-- The `catch` block of `GET api/posts/:id` and `DELETE api/posts/:id`. -/
def catchObjectId (err : Exn) : Response :=
  if err.kind == some "ObjectId" then
    { status := 404, body := .msg "Post not found" }
  else
    { status := 500, body := .text "Server Error" }

/-- The handler `GET api/posts/:id`. -/
def getPost (env : Env) (s : Store) (id : String) : Response × Store :=
  match postFindById env s id with
  | .ok none => ({ status := 404, body := .msg "Post not found" }, s)
  | .ok (some post) => ({ status := 200, body := .post post }, s)
  | .error err => (catchObjectId err, s)

/-- The body of the `try` block of `DELETE api/posts/:id`. -/
def deletePostTry (env : Env) (s : Store) (userId id : String) :
    Except Exn (Response × Store) := do
  let post ← postFindById env s id
  match post with
  | none => pure ({ status := 404, body := .msg "Post not found" }, s)
  | some post =>
    if post.user != userId then
      pure ({ status := 401, body := .msg "User not authorized" }, s)
    else
      let s' ← postRemove env s post
      pure ({ status := 200, body := .msg "Post removed" }, s')

/-- The handler `DELETE api/posts/:id`. -/
def deletePost (env : Env) (s : Store) (userId id : String) : Response × Store :=
  match deletePostTry env s userId id with
  | .ok r => r
  | .error err => (catchObjectId err, s)

/-- The body of the `try` block of `PUT api/posts/like/:id`. -/
def likePostTry (env : Env) (s : Store) (userId id : String) :
    Except Exn (Response × Store) := do
  let post ← postFindById env s id
  let post ← deref post
  if (post.likes.filter (fun like => like.user == userId)).length > 0 then
    pure ({ status := 400, body := .msg "Post already liked" }, s)
  else
    let post := { post with likes := { user := userId } :: post.likes }
    let s' ← postSave env s post
    pure ({ status := 200, body := .likes post.likes }, s')

/-- The handler `PUT api/posts/like/:id`. -/
def likePost (env : Env) (s : Store) (userId id : String) : Response × Store :=
  match likePostTry env s userId id with
  | .ok r => r
  | .error _ => ({ status := 500, body := .text "Server Error" }, s)

/-- The body of the `try` block of `PUT api/posts/unlike/:id`. -/
def unlikePostTry (env : Env) (s : Store) (userId id : String) :
    Except Exn (Response × Store) := do
  let post ← postFindById env s id
  let post ← deref post
  if (post.likes.filter (fun like => like.user == userId)).length == 0 then
    pure ({ status := 400, body := .msg "Post has not yet been liked" }, s)
  else
    let removeIndex := jsIndexOf (post.likes.map (fun like => like.user)) userId
    let post := { post with likes := splice1 post.likes removeIndex }
    let s' ← postSave env s post
    pure ({ status := 200, body := .likes post.likes }, s')

/-- The handler `PUT api/posts/unlike/:id`. -/
def unlikePost (env : Env) (s : Store) (userId id : String) : Response × Store :=
  match unlikePostTry env s userId id with
  | .ok r => r
  | .error _ => ({ status := 500, body := .text "Server Error" }, s)

/-- The check of `POST api/posts` and `POST api/posts/comment/:id`. -/
def textChecks : List Check :=
  [ { field := "text", msg := "Text is required", passes := notEmptyCheck } ]

/-- The body of the `try` block of `POST api/posts/comment/:id`. -/
def commentPostTry (env : Env) (s : Store) (userId id : String) (body : ReqBody) :
    Except Exn (Response × Store) := do
  let user ← userFindById env s userId
  let post ← postFindById env s id
  let user ← deref (user.map selectMinusPassword)
  let text ← requiredPath (body.lookup "text")
  let newComment : Comment :=
    { id := env.newObjectId, text := text, name := user.name, avatar := user.avatar,
      user := userId }
  let post ← deref post
  let post := { post with comments := newComment :: post.comments }
  let s' ← postSave env s post
  pure ({ status := 200, body := .comments post.comments }, s')

/-- The handler `POST api/posts/comment/:id`. -/
def commentPost (env : Env) (s : Store) (userId id : String) (body : ReqBody) :
    Response × Store :=
  let errors := validationResult textChecks body
  if !errors.isEmpty then
    ({ status := 400, body := .errors errors }, s)
  else
    match commentPostTry env s userId id body with
    | .ok r => r
    | .error _ => ({ status := 500, body := .text "Server Error" }, s)

/-- The body of the `try` block of `DELETE api/posts/comment/:id/:comment_id`. -/
def deleteCommentTry (env : Env) (s : Store) (userId id commentId : String) :
    Except Exn (Response × Store) := do
  let post ← postFindById env s id
  let post ← deref post
  match post.comments.find? (fun comment => comment.id == commentId) with
  | none => pure ({ status := 404, body := .msg "Comment does not exist" }, s)
  | some comment =>
    if comment.user != userId then
      pure ({ status := 401, body := .msg "User not authorized" }, s)
    else
      let removeIndex := jsIndexOf (post.comments.map (fun comment => comment.user)) userId
      let post := { post with comments := splice1 post.comments removeIndex }
      let s' ← postSave env s post
      pure ({ status := 200, body := .comments post.comments }, s')

/-- The handler `DELETE api/posts/comment/:id/:comment_id`. -/
def deleteComment (env : Env) (s : Store) (userId id commentId : String) :
    Response × Store :=
  match deleteCommentTry env s userId id commentId with
  | .ok r => r
  | .error _ => ({ status := 500, body := .text "Server Error" }, s)

/-! ## routes/api/profile.js -/

/-- The body of the `try` block of `DELETE api/profile`, with the store it leaves:
`Profile.findOneAndRemove({user})`, then `User.findOneAndRemove({_id})`. The
posts collection is not touched. -/
def deleteProfileTry (env : Env) (s : Store) (userId : String) :
    Except Exn Response × Store :=
  match dbGuard env (.profileFindOneAndRemove userId) with
  | .error e => (.error e, s)
  | .ok _ =>
    let s1 := { s with profiles := s.profiles.eraseP (fun p => p.user == userId) }
    match dbGuard env (.userFindOneAndRemove userId) with
    | .error e => (.error e, s1)
    | .ok _ =>
      let s2 := { s1 with users := s1.users.eraseP (fun u => u.id == userId) }
      (.ok { status := 200, body := .msg "User removed" }, s2)

/-- The handler `DELETE api/profile`. -/
def deleteProfile (env : Env) (s : Store) (userId : String) : Response × Store :=
  match deleteProfileTry env s userId with
  | (.ok res, s') => (res, s')
  | (.error _, s') => ({ status := 500, body := .text "Server error" }, s')

/-- The query `Profile.findOne({user})`. -/
def profileFindOne (env : Env) (s : Store) (user : String) : Except Exn (Option Profile) := do
  dbGuard env (.profileFindOne user)
  pure (s.profiles.find? (fun p => p.user == user))

/-- The call `profile.save()` on a document that was read from the store: the
stored document of that `_id` is replaced. -/
def profileSave (env : Env) (s : Store) (profile : Profile) : Except Exn Store := do
  dbGuard env (.profileSave profile)
  pure { s with profiles := replaceFirst (fun q => q.id == profile.id) profile s.profiles }

/-- The body of the `try` block of `DELETE api/profile/experience/:exp_id`. -/
def deleteExperienceTry (env : Env) (s : Store) (userId expId : String) :
    Except Exn (Response × Store) := do
  let profile ← profileFindOne env s userId
  let profile ← deref profile
  let removeIndex := jsIndexOf (profile.experience.map (fun item => item.id)) expId
  let profile := { profile with experience := splice1 profile.experience removeIndex }
  let s' ← profileSave env s profile
  pure ({ status := 200, body := .profile profile }, s')

/-- The handler `DELETE api/profile/experience/:exp_id`. -/
def deleteExperience (env : Env) (s : Store) (userId expId : String) : Response × Store :=
  match deleteExperienceTry env s userId expId with
  | .ok r => r
  | .error _ => ({ status := 500, body := .text "Server Error" }, s)

/-- The body of the `try` block of `DELETE api/profile/education/:edu_id`. -/
def deleteEducationTry (env : Env) (s : Store) (userId eduId : String) :
    Except Exn (Response × Store) := do
  let profile ← profileFindOne env s userId
  let profile ← deref profile
  let removeIndex := jsIndexOf (profile.education.map (fun item => item.id)) eduId
  let profile := { profile with education := splice1 profile.education removeIndex }
  let s' ← profileSave env s profile
  pure ({ status := 200, body := .profile profile }, s')

/-- The handler `DELETE api/profile/education/:edu_id`. -/
def deleteEducation (env : Env) (s : Store) (userId eduId : String) : Response × Store :=
  match deleteEducationTry env s userId eduId with
  | .ok r => r
  | .error _ => ({ status := 500, body := .text "Server Error" }, s)

/-! ## A sample environment and sample stores -/

/-- An environment in which no library call throws: an email is a string with an
`@`, the hash of a password is the salt followed by the password, the clock
stands at 0, a token is the secret, a colon and the user id, and a token
verifies when it starts with the secret and a colon. -/
def env0 : Env :=
  { isEmail := fun s => s.data.elem '@'
    dbFault := fun _ => none
    newObjectId := "u1"
    gravatarUrl := fun e => .ok ("//www.gravatar.com/avatar/" ++ e)
    genSalt := fun _ => .ok "salt"
    hash := fun p salt => .ok (salt ++ p)
    compare := fun p h => .ok (p.data.isSuffixOf h.data)
    configGet := fun k =>
      if k == "jwtSecret" then .ok "secret" else .error { message := "undefined" }
    now := 0
    signClaims := fun c secret => .ok (secret ++ ":" ++ c.userId)
    verifyClaims := fun t secret =>
      if (secret ++ ":").data.isPrefixOf t.data then
        .ok { userId := String.mk (t.data.drop (secret.length + 1)), issuedAt := 0,
              expiresAt := 360000 }
      else .error { message := "invalid signature" } }

/-- The environment `env0` with a `config.get` that throws. -/
def envConfigFails : Env :=
  { env0 with
    configGet := fun _ => .error { message := "Configuration property is undefined" } }

/-- The empty database. -/
def emptyStore : Store := { users := [], profiles := [], posts := [] }

/-- The user `env0` registers from `aliceBody`. -/
def alice : User :=
  { id := "u1", name := "A", email := "a@x.com",
    avatar := "//www.gravatar.com/avatar/a@x.com", password := "saltsecret1" }

/-- The registration of the scenario of the specification. -/
def aliceBody : ReqBody :=
  [("name", .str "A"), ("email", .str "a@x.com"), ("password", .str "secret1")]

/-- The login of `alice`. -/
def aliceLogin : ReqBody := [("email", .str "a@x.com"), ("password", .str "secret1")]

/-- A login with the email of `alice` and the number 123 for a password. -/
def numericLogin : ReqBody := [("email", .str "a@x.com"), ("password", .num 123)]

/-- A database that holds `alice` only. -/
def aliceStore : Store := { users := [alice], profiles := [], posts := [] }

/-- A post of `alice` with two comments of hers, `c1` before `c2`. -/
def alicePost : Post :=
  { id := "p1", user := "u1", text := "hello", name := "A",
    avatar := "//www.gravatar.com/avatar/a@x.com", likes := [],
    comments :=
      [ { id := "c1", user := "u1", text := "first", name := "A",
          avatar := "//www.gravatar.com/avatar/a@x.com" },
        { id := "c2", user := "u1", text := "second", name := "A",
          avatar := "//www.gravatar.com/avatar/a@x.com" } ] }

/-- A profile of `alice` with one experience entry, `x1`, and one education entry,
`d1`. -/
def aliceProfile : Profile :=
  { id := "f1", user := "u1",
    experience := [{ id := "x1", title := "Engineer", company := "Acme" }],
    education := [{ id := "d1", school := "MIT", degree := "BSc" }] }

/-- A database that holds `alice` and `aliceProfile`. -/
def resumeStore : Store := { users := [alice], profiles := [aliceProfile], posts := [] }

/-- A database that holds `alice`, her profile and her post. -/
def blogStore : Store :=
  { users := [alice],
    profiles := [{ id := "f1", user := "u1", experience := [], education := [] }],
    posts := [alicePost] }

/-! ## Lemmas on the `Except` plumbing -/

theorem dbGuard_ok (env : Env) (c : DbCall) (h : env.dbFault c = none) :
    dbGuard env c = .ok () := by
  simp [dbGuard, h]

theorem userFindOne_ok (env : Env) (s : Store) (email : Option JsVal)
    (h : env.dbFault (.userFindOne (castString email)) = none) :
    userFindOne env s email =
      .ok (s.users.find? (fun u => some u.email == castString email)) := by
  simp [userFindOne, dbGuard, h, bind, Except.bind, pure, Except.pure]

theorem userFindOne_throws (env : Env) (s : Store) (email : Option JsVal) (e : Exn)
    (h : env.dbFault (.userFindOne (castString email)) = some e) :
    userFindOne env s email = .error e := by
  simp [userFindOne, dbGuard, h, bind, Except.bind]

theorem userFindOne_fault (env : Env) (s : Store) (email : Option JsVal) (r : Option User)
    (h : userFindOne env s email = .ok r) :
    env.dbFault (.userFindOne (castString email)) = none ∧
      r = s.users.find? (fun u => some u.email == castString email) := by
  unfold userFindOne dbGuard at h
  cases hf : env.dbFault (.userFindOne (castString email)) with
  | some e => simp [hf, bind, Except.bind] at h
  | none => simpa [hf, bind, Except.bind, pure, Except.pure, eq_comm] using h

/-- The checks of `POST api/auth` pass exactly when the email is valid and the
password field was sent. -/
theorem loginChecks_pass (env : Env) (body : ReqBody) :
    validationResult (loginChecks env) body = [] ↔
      env.isEmail (jsToString (body.lookup "email")) = true ∧
        (body.lookup "password").isSome = true := by
  unfold validationResult loginChecks isEmailCheck existsCheck
  cases h1 : env.isEmail (jsToString (body.lookup "email")) <;>
    cases h2 : (body.lookup "password").isSome <;>
    simp [List.filterMap_cons, h1, h2]

/-- When the checks of `POST api/auth` pass, the handler answers with what its
`try` block produces, or with 500 when the block throws. -/
theorem login_of_valid (env : Env) (s : Store) (body : ReqBody)
    (hv : validationResult (loginChecks env) body = []) :
    login env s body =
      match loginTry env s body with
      | .ok res => (res, s)
      | .error _ => ({ status := 500, body := .text "Server error" }, s) := by
  simp [login, hv]

/-- When the checks of `POST api/users` pass, the handler answers with what its
`try` block produces, or with 500 when the block throws. -/
theorem register_of_valid (env : Env) (s : Store) (body : ReqBody)
    (hv : validationResult (registerChecks env) body = []) :
    register env s body =
      match registerTry env s body with
      | (.ok res, s') => (res, s')
      | (.error _, s') => ({ status := 500, body := .text "Server error" }, s') := by
  simp [register, hv]

/-- The checks of `POST api/users` pass exactly when the name has a character, the
email is valid and the password has six characters or more. -/
theorem registerChecks_pass (env : Env) (body : ReqBody) :
    validationResult (registerChecks env) body = [] ↔
      notEmptyCheck (body.lookup "name") = true ∧
        env.isEmail (jsToString (body.lookup "email")) = true ∧
        6 ≤ (jsToString (body.lookup "password")).length := by
  unfold validationResult registerChecks isEmailCheck isLengthMinCheck
  cases h1 : notEmptyCheck (body.lookup "name") <;>
    cases h2 : env.isEmail (jsToString (body.lookup "email")) <;>
    by_cases h3 : 6 ≤ (jsToString (body.lookup "password")).length <;>
    simp [List.filterMap_cons, h1, h2, h3]

/-- What `stringArg` returns when it does not throw: the value is a string. -/
theorem stringArg_ok (v : Option JsVal) (x : String) (h : stringArg v = .ok x) :
    v = some (.str x) := by
  unfold stringArg at h
  split at h
  · simp at h
    rw [h]
  · simp at h

/-- A value that is no string makes `stringArg` throw. -/
theorem stringArg_throws (v : Option JsVal) (h : ∀ x, v ≠ some (.str x)) :
    ∃ e, stringArg v = .error e := by
  cases hs : stringArg v with
  | error e => exact ⟨e, rfl⟩
  | ok x => exact absurd (stringArg_ok v x hs) (h x)

/-- What `newUser` returns when nothing throws. -/
theorem newUser_ok (env : Env) (name email password : Option JsVal) (user : User)
    (h : newUser env name email password = .ok user) :
    ∃ n e p salt avatar hashed,
      castString name = some n ∧ email = some (.str e) ∧ password = some (.str p) ∧
      env.gravatarUrl e = .ok avatar ∧ env.genSalt 10 = .ok salt ∧
      env.hash p salt = .ok hashed ∧
      user = { id := env.newObjectId, name := n, email := e, avatar := avatar,
               password := hashed } := by
  unfold newUser at h
  cases he : stringArg email with
  | error x => simp [he, bind, Except.bind] at h
  | ok e =>
    have hemail := stringArg_ok email e he
    cases hg : env.gravatarUrl e with
    | error x => simp [he, hg, bind, Except.bind] at h
    | ok avatar =>
      cases hs : env.genSalt 10 with
      | error x => simp [he, hg, hs, bind, Except.bind] at h
      | ok salt =>
        cases hp : stringArg password with
        | error x => simp [he, hg, hs, hp, bind, Except.bind] at h
        | ok p =>
          have hpassword := stringArg_ok password p hp
          cases hh : env.hash p salt with
          | error x => simp [he, hg, hs, hp, hh, bind, Except.bind] at h
          | ok hashed =>
            cases hn : castString name with
            | none => simp [he, hg, hs, hp, hh, hn, requiredPath, bind, Except.bind] at h
            | some n =>
              have hce : castString email = some e := by rw [hemail]; rfl
              simp [he, hg, hs, hp, hh, hn, hce, requiredPath, bind, Except.bind, pure,
                Except.pure] at h
              exact ⟨n, e, p, salt, avatar, hashed, rfl, hemail, hpassword, hg, rfl, hh,
                h.symm⟩

/-- What `userSave` returns when nothing throws: the user was appended, and no
stored user had its id. -/
theorem userSave_ok (env : Env) (s s' : Store) (u : User) (h : userSave env s u = .ok s') :
    s' = { s with users := s.users ++ [u] } ∧ ∀ v ∈ s.users, v.id ≠ u.id := by
  unfold userSave dbGuard at h
  cases hf : env.dbFault (.userSave u) with
  | some e => simp [hf, bind, Except.bind] at h
  | none =>
    by_cases hany : s.users.any (fun v => v.id == u.id) = true
    · simp [hf, bind, Except.bind, hany] at h
    · simp only [hf, bind, Except.bind, hany, pure, Except.pure] at h
      refine ⟨by simpa [eq_comm] using h, ?_⟩
      intro v hv hid
      exact hany (List.any_eq_true.mpr ⟨v, hv, by simp [hid]⟩)

/-- The first element that satisfies `p` splits the list, and `eraseP` removes
exactly that element. -/
theorem find?_eraseP_split {α : Type} (p : α → Bool) :
    ∀ (l : List α) (a : α), l.find? p = some a →
      ∃ l₁ l₂, l = l₁ ++ a :: l₂ ∧ (∀ x ∈ l₁, p x = false) ∧ p a = true ∧
        l.eraseP p = l₁ ++ l₂
  | [], a, h => by simp at h
  | x :: xs, a, h => by
    by_cases hx : p x = true
    · simp [List.find?_cons, hx] at h
      subst h
      exact ⟨[], xs, rfl, by simp, hx, by simp [List.eraseP_cons, hx]⟩
    · have hx' : p x = false := by simpa using hx
      simp [List.find?_cons, hx'] at h
      obtain ⟨l₁, l₂, hl, hall, hpa, he⟩ := find?_eraseP_split p xs a h
      refine ⟨x :: l₁, l₂, by simp [hl], ?_, hpa, by simp [List.eraseP_cons, hx', he]⟩
      intro y hy
      rcases List.mem_cons.mp hy with rfl | hy
      · exact hx'
      · exact hall y hy

/-- The checks of `POST api/users` read `isEmail` only. -/
theorem registerChecks_congr (env env' : Env) (h : env'.isEmail = env.isEmail) :
    registerChecks env' = registerChecks env := by
  have hc : isEmailCheck env' = isEmailCheck env := by
    funext v
    simp [isEmailCheck, h]
  simp [registerChecks, hc]

/-- The checks of `POST api/auth` read `isEmail` only. -/
theorem loginChecks_congr (env env' : Env) (h : env'.isEmail = env.isEmail) :
    loginChecks env' = loginChecks env := by
  have hc : isEmailCheck env' = isEmailCheck env := by
    funext v
    simp [isEmailCheck, h]
  simp [loginChecks, hc]

/-- What `postFindById` returns when nothing throws. -/
theorem postFindById_ok (env : Env) (s : Store) (id : String) (r : Option Post)
    (h : postFindById env s id = .ok r) :
    env.dbFault (.postFindById id) = none ∧ s.posts.find? (fun p => p.id == id) = r := by
  unfold postFindById dbGuard at h
  cases hf : env.dbFault (.postFindById id) with
  | some e => simp [hf, bind, Except.bind] at h
  | none => simpa [hf, bind, Except.bind, pure, Except.pure] using h

/-- A registration that is answered with a token: the checks passed, no user had
the email, the new user was saved, and the token is what `jwt.sign` made of
`{user: {id}}`, the configured secret and `expiresIn: 360000`. -/
theorem register_token (env : Env) (s : Store) (body : ReqBody) (t : String)
    (h : (register env s body).1 = { status := 200, body := .token t }) :
    validationResult (registerChecks env) body = [] ∧
    ∃ user secret,
      userFindOne env s (body.lookup "email") = .ok none ∧
      newUser env (body.lookup "name") (body.lookup "email") (body.lookup "password")
        = .ok user ∧
      (∀ v ∈ s.users, v.id ≠ user.id) ∧
      env.configGet "jwtSecret" = .ok secret ∧
      jwtSign env { userId := user.id } secret 360000 = .ok t ∧
      register env s body =
        ({ status := 200, body := .token t }, { s with users := s.users ++ [user] }) := by
  by_cases hv : validationResult (registerChecks env) body = []
  · refine ⟨hv, ?_⟩
    rw [register_of_valid env s body hv] at h ⊢
    unfold registerTry at h ⊢
    cases hf : userFindOne env s (body.lookup "email") with
    | error e => simp [hf] at h
    | ok found =>
      cases found with
      | some v => simp [hf] at h
      | none =>
        cases hn : newUser env (body.lookup "name") (body.lookup "email")
            (body.lookup "password") with
        | error e => simp [hf, hn] at h
        | ok user =>
          cases hs : userSave env s user with
          | error e => simp [hf, hn, hs] at h
          | ok s' =>
            obtain ⟨hs', hfresh⟩ := userSave_ok env s s' user hs
            cases hc : env.configGet "jwtSecret" with
            | error e => simp [hf, hn, hs, hc, bind, Except.bind] at h
            | ok secret =>
              cases hg : jwtSign env { userId := user.id } secret 360000 with
              | error e => simp [hf, hn, hs, hc, hg, bind, Except.bind] at h
              | ok tok =>
                simp [hf, hn, hs, hc, hg, bind, Except.bind, pure, Except.pure] at h
                subst h
                refine ⟨user, secret, rfl, rfl, hfresh, rfl, hg, ?_⟩
                simp [hf, hn, hs, hc, hg, bind, Except.bind, pure, Except.pure, hs']
  · exfalso
    have hne : (validationResult (registerChecks env) body).isEmpty = false := by
      cases hl : validationResult (registerChecks env) body with
      | nil => exact absurd hl hv
      | cons a l => rfl
    simp [register, hne] at h

/-- A login that is answered with a token: the checks passed, the lookup by email
found a user, the password is a string that `bcrypt.compare` accepts, and the
token is what `jwt.sign` made of `{user: {id}}` with the id of that user, the
configured secret and `expiresIn: 360000`. -/
theorem login_token (env : Env) (s : Store) (body : ReqBody) (t : String)
    (h : (login env s body).1 = { status := 200, body := .token t }) :
    validationResult (loginChecks env) body = [] ∧
    ∃ user p secret,
      userFindOne env s (body.lookup "email") = .ok (some user) ∧
      body.lookup "password" = some (.str p) ∧
      env.compare p user.password = .ok true ∧
      env.configGet "jwtSecret" = .ok secret ∧
      jwtSign env { userId := user.id } secret 360000 = .ok t := by
  by_cases hv : validationResult (loginChecks env) body = []
  · refine ⟨hv, ?_⟩
    rw [login_of_valid env s body hv] at h
    unfold loginTry at h
    cases hf : userFindOne env s (body.lookup "email") with
    | error e => simp [hf, bind, Except.bind] at h
    | ok found =>
      cases found with
      | none => simp [hf, bind, Except.bind, pure, Except.pure] at h
      | some user =>
        cases hp : stringArg (body.lookup "password") with
        | error e => simp [hf, hp, bind, Except.bind] at h
        | ok p =>
          have hpw := stringArg_ok _ p hp
          cases hm : env.compare p user.password with
          | error e => simp [hf, hp, hm, bind, Except.bind] at h
          | ok isMatch =>
            cases isMatch with
            | false => simp [hf, hp, hm, bind, Except.bind, pure, Except.pure] at h
            | true =>
              cases hc : env.configGet "jwtSecret" with
              | error e => simp [hf, hp, hm, hc, bind, Except.bind] at h
              | ok secret =>
                cases hg : jwtSign env { userId := user.id } secret 360000 with
                | error e => simp [hf, hp, hm, hc, hg, bind, Except.bind] at h
                | ok tok =>
                  simp [hf, hp, hm, hc, hg, bind, Except.bind, pure, Except.pure] at h
                  subst h
                  exact ⟨user, p, secret, rfl, hpw, hm, rfl, hg⟩
  · exfalso
    have hne : (validationResult (loginChecks env) body).isEmpty = false := by
      cases hl : validationResult (loginChecks env) body with
      | nil => exact absurd hl hv
      | cons a l => rfl
    simp [login, hne] at h

/-! ## Login and registration -/

/-- A validated login that finds no user with the email and a validated login
whose password is a string that the stored hash of the user found does not
match are answered alike, whatever the two stores and the two requests:
status 400 and the body `{errors: [{msg: "Invalid Credentials"}]}`. -/
theorem login_failures_alike_of_string_password
    (env₁ env₂ : Env) (s₁ s₂ : Store) (b₁ b₂ : ReqBody) (u : User) (p : String)
    (hv₁ : validationResult (loginChecks env₁) b₁ = [])
    (hv₂ : validationResult (loginChecks env₂) b₂ = [])
    (hnone : userFindOne env₁ s₁ (b₁.lookup "email") = .ok none)
    (hsome : userFindOne env₂ s₂ (b₂.lookup "email") = .ok (some u))
    (hp : b₂.lookup "password" = some (.str p))
    (hbad : env₂.compare p u.password = .ok false) :
    (login env₁ s₁ b₁).1 = { status := 400, body := .errors [{ msg := "Invalid Credentials" }] } ∧
    (login env₂ s₂ b₂).1 = { status := 400, body := .errors [{ msg := "Invalid Credentials" }] } ∧
    (login env₁ s₁ b₁).1 = (login env₂ s₂ b₂).1 := by
  have h₁ : (login env₁ s₁ b₁).1 =
      { status := 400, body := .errors [{ msg := "Invalid Credentials" }] } := by
    rw [login_of_valid env₁ s₁ b₁ hv₁]
    simp [loginTry, hnone, bind, Except.bind, pure, Except.pure]
  have h₂ : (login env₂ s₂ b₂).1 =
      { status := 400, body := .errors [{ msg := "Invalid Credentials" }] } := by
    rw [login_of_valid env₂ s₂ b₂ hv₂]
    simp [loginTry, hsome, hp, hbad, stringArg, bind, Except.bind, pure, Except.pure]
  exact ⟨h₁, h₂, h₁.trans h₂.symm⟩

/-- A validated login whose password is no string (a number, a boolean, `null`) is
answered 400 "Invalid Credentials" when no user has the email and 500
"Server error" when a user has it: `bcrypt.compare` throws on the value. -/
theorem login_of_nonstring_password
    (env : Env) (s : Store) (body : ReqBody)
    (hv : validationResult (loginChecks env) body = [])
    (hp : ∀ p, body.lookup "password" ≠ some (.str p)) :
    (userFindOne env s (body.lookup "email") = .ok none →
      login env s body =
        ({ status := 400, body := .errors [{ msg := "Invalid Credentials" }] }, s)) ∧
    (∀ u, userFindOne env s (body.lookup "email") = .ok (some u) →
      login env s body = ({ status := 500, body := .text "Server error" }, s)) := by
  obtain ⟨e, he⟩ := stringArg_throws _ hp
  constructor
  · intro hnone
    rw [login_of_valid env s body hv]
    simp [loginTry, hnone, bind, Except.bind, pure, Except.pure]
  · intro u hsome
    rw [login_of_valid env s body hv]
    simp [loginTry, hsome, he, bind, Except.bind]

/-- C1, where the code departs from it: the login `{email: "a@x.com", password: 123}`
passes the checks (`exists()` accepts the number). Against the empty store
it is answered 400 `{errors: [{msg: "Invalid Credentials"}]}`; against the
store that holds `alice`, whose email it is, `bcrypt.compare` throws on the
number and the answer is 500 "Server error". The two failures are told
apart. -/
theorem login_numeric_password_reveals_user :
    validationResult (loginChecks env0) numericLogin = [] ∧
    login env0 emptyStore numericLogin =
      ({ status := 400, body := .errors [{ msg := "Invalid Credentials" }] }, emptyStore) ∧
    login env0 aliceStore numericLogin =
      ({ status := 500, body := .text "Server error" }, aliceStore) ∧
    (login env0 emptyStore numericLogin).1 ≠ (login env0 aliceStore numericLogin).1 := by
  decide

/-- C2: a validated registration whose email belongs to a user of the store is
answered with status 400 and `{errors: [{msg: "User already exists"}]}`: the
body is no token, and the store is left as it was. -/
theorem register_duplicate_email
    (env : Env) (s : Store) (body : ReqBody) (u : User)
    (hv : validationResult (registerChecks env) body = [])
    (hdb : env.dbFault (.userFindOne (castString (body.lookup "email"))) = none)
    (hu : u ∈ s.users) (he : some u.email = castString (body.lookup "email")) :
    register env s body =
      ({ status := 400, body := .errors [{ msg := "User already exists" }] }, s) ∧
    (∀ t, (register env s body).1.body ≠ .token t) ∧
    (register env s body).2 = s := by
  have hfind : ∃ v, s.users.find?
      (fun w => some w.email == castString (body.lookup "email")) = some v := by
    cases hf : s.users.find? (fun w => some w.email == castString (body.lookup "email")) with
    | some v => exact ⟨v, rfl⟩
    | none =>
      have := List.find?_eq_none.mp hf u hu
      simp [he] at this
  obtain ⟨v, hv'⟩ := hfind
  have hreg : register env s body =
      ({ status := 400, body := .errors [{ msg := "User already exists" }] }, s) := by
    rw [register_of_valid env s body hv]
    simp [registerTry, userFindOne_ok env s _ hdb, hv']
  refine ⟨hreg, ?_, ?_⟩
  · intro t
    rw [hreg]
    simp
  · rw [hreg]

/-- C2, at an input: `alice` registers a second time. -/
theorem register_duplicate_email_witness :
    register env0 aliceStore aliceBody =
      ({ status := 400, body := .errors [{ msg := "User already exists" }] }, aliceStore) :=
  (register_duplicate_email env0 aliceStore aliceBody alice
    (by decide) (by decide) (by decide) (by decide)).1

/-- C3: after a registration of name `n`, email `e` and password `p` that is
answered with a token `t` (so the store held no user of email `e`), with a
hasher whose `compare` accepts every hash it made and a gate that decodes a
token to the payload that was signed: the store holds the new user, whose id is
the id made at registration; a login with `e` and `p` is answered 200 with the
token that `jwt.sign` makes of the payload `{user: {id}}` of the user found by
email; and `GET api/auth` with that token returns the record of that id, name
`n`, email `e` and the gravatar of `e`, without the password. -/
theorem register_login_whoami
    (env : Env) (s : Store) (body lbody : ReqBody) (n e p t : String)
    (hn : body.lookup "name" = some (.str n))
    (he : body.lookup "email" = some (.str e)) (hp : body.lookup "password" = some (.str p))
    (hle : lbody.lookup "email" = some (.str e))
    (hlp : lbody.lookup "password" = some (.str p))
    (hhash : ∀ q salt h, env.hash q salt = .ok h → env.compare q h = .ok true)
    (gate : Option String → Except Response String)
    (hgate : ∀ payload secret k tok,
      env.configGet "jwtSecret" = .ok secret → jwtSign env payload secret k = .ok tok →
      gate (some tok) = .ok payload.userId)
    (hreg : (register env s body).1 = { status := 200, body := .token t })
    (hdb : env.dbFault (.userFindById env.newObjectId) = none) :
    ∃ user secret avatar,
      (register env s body).2 = { s with users := s.users ++ [user] } ∧
      user.id = env.newObjectId ∧ user.name = n ∧ user.email = e ∧
      env.gravatarUrl e = .ok avatar ∧ user.avatar = avatar ∧
      userFindOne env (register env s body).2 (lbody.lookup "email") = .ok (some user) ∧
      env.configGet "jwtSecret" = .ok secret ∧
      jwtSign env { userId := user.id } secret 360000 = .ok t ∧
      login env (register env s body).2 lbody =
        ({ status := 200, body := .token t }, (register env s body).2) ∧
      getAuthRoute gate env (register env s body).2 (some t) =
        ({ status := 200,
           body := .user (some { id := env.newObjectId, name := n, email := e,
                                 avatar := avatar }) },
          (register env s body).2) := by
  obtain ⟨hv, user, secret, hfind, hnew, hfresh, hcfg, hsign, hregEq⟩ :=
    register_token env s body t hreg
  obtain ⟨n', e', p', salt, avatar, hashed, hn', he', hp', hgrav, -, hhashed, huser⟩ :=
    newUser_ok env _ _ _ user hnew
  have hee : e' = e := by
    rw [he] at he'
    exact (JsVal.str.inj (Option.some.inj he')).symm
  have hpp : p' = p := by
    rw [hp] at hp'
    exact (JsVal.str.inj (Option.some.inj hp')).symm
  have hnn : n' = n := by
    rw [hn] at hn'
    exact (Option.some.inj hn').symm
  subst hee hpp hnn
  have hid : user.id = env.newObjectId := by rw [huser]
  have hname : user.name = n' := by rw [huser]
  have hemail : user.email = e' := by rw [huser]
  have havatar : user.avatar = avatar := by rw [huser]
  have hpw : user.password = hashed := by rw [huser]
  have hcast : castString (some (JsVal.str e')) = some e' := rfl
  obtain ⟨hfault, hnone⟩ := userFindOne_fault env s _ none hfind
  rw [he, hcast] at hfault hnone
  have hfind' : userFindOne env { s with users := s.users ++ [user] } (some (.str e'))
      = .ok (some user) := by
    have hno : ∀ x ∈ s.users, ¬ x.email = e' := by
      intro x hx
      have := List.find?_eq_none.mp hnone.symm x hx
      simpa using this
    rw [userFindOne_ok env _ _ (by rw [hcast]; exact hfault)]
    simp [List.find?_append, hemail, hcast]
    exact Or.inr hno
  have hvl : validationResult (loginChecks env) lbody = [] := by
    rw [loginChecks_pass, hle, hlp]
    have := (registerChecks_pass env body).mp hv
    rw [he] at this
    exact ⟨this.2.1, rfl⟩
  have hbyid : userFindById env { s with users := s.users ++ [user] } env.newObjectId
      = .ok (some user) := by
    have hnf : s.users.find? (fun u => u.id == env.newObjectId) = none := by
      rw [List.find?_eq_none]
      intro v hvmem
      have := hfresh v hvmem
      rw [hid] at this
      simpa using this
    simp [userFindById, dbGuard, hdb, bind, Except.bind, pure, Except.pure,
      List.find?_append, hnf, hid]
  rw [hregEq]
  refine ⟨user, secret, avatar, rfl, hid, hname, hemail, hgrav, havatar, ?_, hcfg, hsign,
    ?_, ?_⟩
  · rw [hle]
    exact hfind'
  · rw [login_of_valid env _ lbody hvl]
    simp [loginTry, hle, hlp, hfind', stringArg, hpw, hhash p' salt hashed hhashed,
      hcfg, hsign, bind, Except.bind, pure, Except.pure]
  · have hver := hgate _ _ _ _ hcfg hsign
    simp [getAuthRoute, getAuth, hver, hid, hbyid, selectMinusPassword, hname, hemail,
      havatar]

/-- C3, at an input: `alice` registers in the empty store, logs in, and asks who
she is. -/
theorem register_login_whoami_witness :
    ∃ user secret avatar,
      (register env0 emptyStore aliceBody).2 =
        { emptyStore with users := emptyStore.users ++ [user] } ∧
      user.id = env0.newObjectId ∧ user.name = "A" ∧ user.email = "a@x.com" ∧
      env0.gravatarUrl "a@x.com" = .ok avatar ∧ user.avatar = avatar ∧
      userFindOne env0 (register env0 emptyStore aliceBody).2 (List.lookup "email" aliceLogin)
        = .ok (some user) ∧
      env0.configGet "jwtSecret" = .ok secret ∧
      jwtSign env0 { userId := user.id } secret 360000 = .ok "secret:u1" ∧
      login env0 (register env0 emptyStore aliceBody).2 aliceLogin =
        ({ status := 200, body := .token "secret:u1" },
          (register env0 emptyStore aliceBody).2) ∧
      getAuthRoute (auth env0) env0 (register env0 emptyStore aliceBody).2 (some "secret:u1") =
        ({ status := 200,
           body := .user (some { id := env0.newObjectId, name := "A", email := "a@x.com",
                                 avatar := avatar }) },
          (register env0 emptyStore aliceBody).2) :=
  register_login_whoami env0 emptyStore aliceBody aliceLogin "A" "a@x.com" "secret1"
    "secret:u1"
    (by decide) (by decide) (by decide) (by decide) (by decide)
    (by
      intro q salt h hq
      have hh : h = salt ++ q := (Except.ok.inj hq).symm
      subst hh
      simp [env0, String.data_append])
    (auth env0)
    (by
      intro payload secret k tok hsecret htok
      have hs : secret = "secret" := (Except.ok.inj hsecret).symm
      subst hs
      have ht : tok = "secret" ++ ":" ++ payload.userId := (Except.ok.inj htok).symm
      subst ht
      have hd : ("secret" ++ ":" ++ payload.userId).data =
          ("secret" ++ ":").data ++ payload.userId.data := by
        simp [String.data_append]
      have hdrop : List.drop ("secret".length + 1) ("secret" ++ ":" ++ payload.userId).data
          = payload.userId.data := by
        have hl : ("secret" ++ ":").data.length = "secret".length + 1 := by decide
        rw [hd, ← hl, List.drop_left]
      have hpre : ("secret" ++ ":").data.isPrefixOf ("secret" ++ ":" ++ payload.userId).data
          = true := by
        rw [hd]
        simp
      have hcfg : env0.configGet "jwtSecret" = .ok "secret" := by decide
      have hver : env0.verifyClaims ("secret" ++ ":" ++ payload.userId) "secret"
          = .ok { userId := payload.userId, issuedAt := 0, expiresAt := 360000 } := by
        simp only [env0, hpre, hdrop, if_true]
      have hnow : env0.now = 0 := rfl
      simp only [auth, jwtVerify, hcfg, bind, Except.bind, hver, hnow]
      rfl)
    (by decide) (by decide)

/-- C4: in a validated login and in a validated registration, whatever a library
call throws inside the `try` block, the answer is status 500 with the text
"Server error", which holds no token. Call by call: `User.findOne`,
`bcrypt.compare` (also on a password that is no string), `config.get` and
`jwt.sign` in the login; `User.findOne`, `gravatar.url`, `bcrypt.genSalt`,
`bcrypt.hash`, `user.save()`, `config.get` and `jwt.sign` in the registration,
where the user saved before `config.get` or `jwt.sign` throws stays in the
store. -/
theorem dependency_failure_is_server_error (env : Env) (s : Store) (body : ReqBody) :
    (validationResult (loginChecks env) body = [] →
      (∀ e, env.dbFault (.userFindOne (castString (body.lookup "email"))) = some e →
        login env s body = ({ status := 500, body := .text "Server error" }, s)) ∧
      (∀ user, userFindOne env s (body.lookup "email") = .ok (some user) →
        ((∀ p, body.lookup "password" ≠ some (.str p)) → login env s body = ({ status := 500, body := .text "Server error" }, s)) ∧
        (∀ p, body.lookup "password" = some (.str p) →
          (∀ e, env.compare p user.password = .error e → login env s body = ({ status := 500, body := .text "Server error" }, s)) ∧
          (env.compare p user.password = .ok true →
            (∀ e, env.configGet "jwtSecret" = .error e → login env s body = ({ status := 500, body := .text "Server error" }, s)) ∧
            (∀ secret e, env.configGet "jwtSecret" = .ok secret →
              jwtSign env { userId := user.id } secret 360000 = .error e → login env s body = ({ status := 500, body := .text "Server error" }, s)))))) ∧
    (validationResult (registerChecks env) body = [] →
      (∀ e, env.dbFault (.userFindOne (castString (body.lookup "email"))) = some e →
        register env s body = ({ status := 500, body := .text "Server error" }, s)) ∧
      (userFindOne env s (body.lookup "email") = .ok none →
        (∀ em, body.lookup "email" = some (.str em) →
          (∀ e, env.gravatarUrl em = .error e → register env s body = ({ status := 500, body := .text "Server error" }, s)) ∧
          (∀ avatar, env.gravatarUrl em = .ok avatar →
            (∀ e, env.genSalt 10 = .error e → register env s body = ({ status := 500, body := .text "Server error" }, s)) ∧
            (∀ salt, env.genSalt 10 = .ok salt →
              ((∀ p, body.lookup "password" ≠ some (.str p)) → register env s body = ({ status := 500, body := .text "Server error" }, s)) ∧
              (∀ p e, body.lookup "password" = some (.str p) →
                env.hash p salt = .error e → register env s body = ({ status := 500, body := .text "Server error" }, s))))) ∧
        (∀ user,
          newUser env (body.lookup "name") (body.lookup "email") (body.lookup "password")
            = .ok user →
          (∀ e, userSave env s user = .error e → register env s body = ({ status := 500, body := .text "Server error" }, s)) ∧
          (∀ s', userSave env s user = .ok s' →
            (∀ e, env.configGet "jwtSecret" = .error e → register env s body = ({ status := 500, body := .text "Server error" }, s')) ∧
            (∀ secret e, env.configGet "jwtSecret" = .ok secret →
              jwtSign env { userId := user.id } secret 360000 = .error e → register env s body = ({ status := 500, body := .text "Server error" }, s')))))) := by
  constructor
  · intro hv
    rw [login_of_valid env s body hv]
    refine ⟨?_, ?_⟩
    · intro e he
      simp [loginTry, userFindOne_throws env s _ e he, bind, Except.bind]
    · intro user hf
      refine ⟨?_, ?_⟩
      · intro hp
        obtain ⟨e, he⟩ := stringArg_throws _ hp
        simp [loginTry, hf, he, bind, Except.bind]
      · intro p hp
        refine ⟨?_, ?_⟩
        · intro e hm
          simp [loginTry, hf, hp, hm, stringArg, bind, Except.bind]
        · intro hm
          refine ⟨?_, ?_⟩
          · intro e hc
            simp [loginTry, hf, hp, hm, hc, stringArg, bind, Except.bind]
          · intro secret e hc hg
            simp [loginTry, hf, hp, hm, hc, hg, stringArg, bind, Except.bind]
  · intro hv
    rw [register_of_valid env s body hv]
    refine ⟨?_, ?_⟩
    · intro e he
      simp [registerTry, userFindOne_throws env s _ e he]
    · intro hf
      refine ⟨?_, ?_⟩
      · intro em hem
        rw [hem] at hf
        refine ⟨?_, ?_⟩
        · intro e hg
          simp [registerTry, hf, newUser, hem, hg, stringArg, bind, Except.bind]
        · intro avatar hg
          refine ⟨?_, ?_⟩
          · intro e hs
            simp [registerTry, hf, newUser, hem, hg, hs, stringArg, bind, Except.bind]
          · intro salt hs
            refine ⟨?_, ?_⟩
            · intro hp
              obtain ⟨e, he⟩ := stringArg_throws _ hp
              simp [registerTry, hf, newUser, hem, hg, hs, he, stringArg, bind, Except.bind]
            · intro p e hp hh
              simp [registerTry, hf, newUser, hem, hg, hs, hp, hh, stringArg, bind,
                Except.bind]
      · intro user hn
        refine ⟨?_, ?_⟩
        · intro e hs
          simp [registerTry, hf, hn, hs]
        · intro s' hs
          refine ⟨?_, ?_⟩
          · intro e hc
            simp [registerTry, hf, hn, hs, hc, bind, Except.bind]
          · intro secret e hc hg
            simp [registerTry, hf, hn, hs, hc, hg, bind, Except.bind]

/-- C4, at an input: `alice` logs in while `config.get('jwtSecret')` throws. -/
theorem dependency_failure_is_server_error_witness :
    login envConfigFails aliceStore aliceLogin =
      ({ status := 500, body := .text "Server error" }, aliceStore) :=
  ((((dependency_failure_is_server_error envConfigFails aliceStore aliceLogin).1
    (by decide)).2 alice (by decide)).2 "secret1" (by decide)).2 (by decide) |>.1
    { message := "Configuration property is undefined" } (by decide)

/-- C8: login and registration issue their token the same way. When nothing
throws, each answers 200 with the token signed over the claims of the user id
(the user found by email; the user just saved), issued now and expiring
`100 * 3600` seconds after now, under the secret `config.get('jwtSecret')`; and
every token either answers is such a token. The window `expiresIn: 360000` is
100 hours. -/
theorem token_built_alike :
    (∀ (env : Env) (s : Store) (body : ReqBody) (user : User) (p secret t : String),
      validationResult (loginChecks env) body = [] →
      userFindOne env s (body.lookup "email") = .ok (some user) →
      body.lookup "password" = some (.str p) →
      env.compare p user.password = .ok true →
      env.configGet "jwtSecret" = .ok secret →
      env.signClaims
        { userId := user.id, issuedAt := env.now, expiresAt := env.now + 100 * 3600 } secret
        = .ok t →
      login env s body = ({ status := 200, body := .token t }, s)) ∧
    (∀ (env : Env) (s s' : Store) (body : ReqBody) (user : User) (secret t : String),
      validationResult (registerChecks env) body = [] →
      userFindOne env s (body.lookup "email") = .ok none →
      newUser env (body.lookup "name") (body.lookup "email") (body.lookup "password")
        = .ok user →
      userSave env s user = .ok s' →
      env.configGet "jwtSecret" = .ok secret →
      env.signClaims
        { userId := user.id, issuedAt := env.now, expiresAt := env.now + 100 * 3600 } secret
        = .ok t →
      register env s body = ({ status := 200, body := .token t }, s')) ∧
    (∀ (env : Env) (s : Store) (body : ReqBody) (t : String),
      (login env s body).1 = { status := 200, body := .token t } →
      ∃ user secret,
        userFindOne env s (body.lookup "email") = .ok (some user) ∧
        env.configGet "jwtSecret" = .ok secret ∧
        env.signClaims
          { userId := user.id, issuedAt := env.now, expiresAt := env.now + 100 * 3600 } secret
          = .ok t) ∧
    (∀ (env : Env) (s : Store) (body : ReqBody) (t : String),
      (register env s body).1 = { status := 200, body := .token t } →
      ∃ user secret,
        (register env s body).2 = { s with users := s.users ++ [user] } ∧
        env.configGet "jwtSecret" = .ok secret ∧
        env.signClaims
          { userId := user.id, issuedAt := env.now, expiresAt := env.now + 100 * 3600 } secret
          = .ok t) ∧
    (360000 : Nat) = 100 * 3600 := by
  have hwin : ∀ (env : Env) (id secret : String),
      jwtSign env { userId := id } secret 360000 =
        env.signClaims
          { userId := id, issuedAt := env.now, expiresAt := env.now + 100 * 3600 } secret := by
    intro env id secret
    rfl
  refine ⟨?_, ?_, ?_, ?_, by norm_num⟩
  · intro env s body user p secret t hv hf hp hm hc hg
    rw [← hwin] at hg
    rw [login_of_valid env s body hv]
    simp [loginTry, hf, hp, hm, hc, hg, stringArg, bind, Except.bind, pure, Except.pure]
  · intro env s s' body user secret t hv hf hn hs hc hg
    rw [← hwin] at hg
    rw [register_of_valid env s body hv]
    simp [registerTry, hf, hn, hs, hc, hg, bind, Except.bind, pure, Except.pure]
  · intro env s body t h
    obtain ⟨-, user, p, secret, hf, -, -, hc, hg⟩ := login_token env s body t h
    exact ⟨user, secret, hf, hc, by rw [← hwin]; exact hg⟩
  · intro env s body t h
    obtain ⟨-, user, secret, -, -, -, hc, hg, hreg⟩ := register_token env s body t h
    exact ⟨user, secret, by rw [hreg], hc, by rw [← hwin]; exact hg⟩

/-- C8, at an input: the login of `alice` is answered with the token signed over
her id. -/
theorem token_built_alike_witness :
    login env0 aliceStore aliceLogin =
      ({ status := 200, body := .token "secret:u1" }, aliceStore) :=
  token_built_alike.1 env0 aliceStore aliceLogin alice "secret1" "secret" "secret:u1"
    (by decide) (by decide) (by decide) (by decide) (by decide) (by decide)

/-! ## Validation -/

/-- C7: a registration whose name has no character, whose email is not valid or
whose password has fewer than six characters is answered with status 400 (not
500) and `{errors: es}`, where `es` is not empty and holds one entry for each
of the three checks that failed, in their order; the store is left as it was,
and the answer is the same for every store and every behaviour of the
database and the other libraries. The same for a login whose email is not
valid or whose password field is missing. -/
theorem validation_failure_is_400 (env : Env) (s : Store) (body : ReqBody) :
    (((jsToString (body.lookup "name")).length = 0 ∨
        env.isEmail (jsToString (body.lookup "email")) = false ∨
        (jsToString (body.lookup "password")).length < 6) →
      ∃ es, register env s body = ({ status := 400, body := .errors es }, s) ∧
        es ≠ [] ∧
        es.map (fun item => item.msg) =
          (if (jsToString (body.lookup "name")).length = 0 then ["Name is required"] else []) ++
          (if env.isEmail (jsToString (body.lookup "email")) = false then
            ["Please include a valid email"] else []) ++
          (if (jsToString (body.lookup "password")).length < 6 then
            ["Please enter a password with six or more characters"] else []) ∧
        (register env s body).1.status ≠ 500 ∧
        ∀ (env' : Env) (s' : Store), env'.isEmail = env.isEmail →
          register env' s' body = ({ status := 400, body := .errors es }, s')) ∧
    ((env.isEmail (jsToString (body.lookup "email")) = false ∨
        body.lookup "password" = none) →
      ∃ es, login env s body = ({ status := 400, body := .errors es }, s) ∧
        es ≠ [] ∧
        es.map (fun item => item.msg) =
          (if env.isEmail (jsToString (body.lookup "email")) = false then
            ["Please include a valid email"] else []) ++
          (if body.lookup "password" = none then ["Password is Required"] else []) ∧
        (login env s body).1.status ≠ 500 ∧
        ∀ (env' : Env) (s' : Store), env'.isEmail = env.isEmail →
          login env' s' body = ({ status := 400, body := .errors es }, s')) := by
  constructor
  · intro hbad
    have hne : validationResult (registerChecks env) body ≠ [] := by
      intro hnil
      obtain ⟨h1, h2, h3⟩ := (registerChecks_pass env body).mp hnil
      rcases hbad with h | h | h
      · simp [notEmptyCheck, h] at h1
      · simp [h] at h2
      · omega
    have hemp : (validationResult (registerChecks env) body).isEmpty = false := by
      cases hl : validationResult (registerChecks env) body with
      | nil => exact absurd hl hne
      | cons a l => rfl
    refine ⟨validationResult (registerChecks env) body, ?_, hne, ?_, ?_, ?_⟩
    · simp [register, hemp]
    · unfold validationResult registerChecks isEmailCheck isLengthMinCheck notEmptyCheck
      by_cases h1 : (jsToString (body.lookup "name")).length = 0 <;>
        cases h2 : env.isEmail (jsToString (body.lookup "email")) <;>
        by_cases h3 : (jsToString (body.lookup "password")).length < 6 <;>
        simp [List.filterMap_cons, h1, h2, h3]
    · simp [register, hemp]
    · intro env' s' henv
      simp [register, registerChecks_congr env env' henv, hemp]
  · intro hbad
    have hne : validationResult (loginChecks env) body ≠ [] := by
      intro hnil
      obtain ⟨h1, h2⟩ := (loginChecks_pass env body).mp hnil
      rcases hbad with h | h
      · simp [h] at h1
      · simp [h] at h2
    have hemp : (validationResult (loginChecks env) body).isEmpty = false := by
      cases hl : validationResult (loginChecks env) body with
      | nil => exact absurd hl hne
      | cons a l => rfl
    refine ⟨validationResult (loginChecks env) body, ?_, hne, ?_, ?_, ?_⟩
    · simp [login, hemp]
    · unfold validationResult loginChecks isEmailCheck existsCheck
      cases h1 : env.isEmail (jsToString (body.lookup "email")) <;>
        cases h2 : body.lookup "password" <;>
        simp [List.filterMap_cons, h1, h2]
    · simp [login, hemp]
    · intro env' s' henv
      simp [login, loginChecks_congr env env' henv, hemp]

/-- C7, at an input: a registration with no name, a bad email and a short
password gets the three entries. -/
theorem validation_failure_is_400_witness :
    ∃ es, register env0 aliceStore [("email", .str "nobody"), ("password", .str "12345")] =
        ({ status := 400, body := .errors es }, aliceStore) ∧
      es ≠ [] ∧
      es.map (fun item => item.msg) =
        (if (jsToString (List.lookup "name"
            [("email", JsVal.str "nobody"), ("password", JsVal.str "12345")])).length = 0
          then ["Name is required"] else []) ++
        (if env0.isEmail (jsToString (List.lookup "email"
            [("email", JsVal.str "nobody"), ("password", JsVal.str "12345")])) = false
          then ["Please include a valid email"] else []) ++
        (if (jsToString (List.lookup "password"
            [("email", JsVal.str "nobody"), ("password", JsVal.str "12345")])).length < 6
          then ["Please enter a password with six or more characters"] else []) ∧
      (register env0 aliceStore
        [("email", .str "nobody"), ("password", .str "12345")]).1.status ≠ 500 ∧
      ∀ (env' : Env) (s' : Store), env'.isEmail = env0.isEmail →
        register env' s' [("email", .str "nobody"), ("password", .str "12345")] =
          ({ status := 400, body := .errors es }, s') :=
  (validation_failure_is_400 env0 aliceStore
    [("email", .str "nobody"), ("password", .str "12345")]).1
    (Or.inl (by decide))

/-! ## Posts and profiles -/

/-- C5, where the code departs from it: with no post `p9` in the store,
`GET api/posts/:id` and `DELETE api/posts/:id` answer 404 `{msg: "Post not found"}`,
but like, unlike, comment and delete-comment read a property of the `null`
that `Post.findById` returned and answer 500 "Server Error". The store is left
as it was by all six. -/
theorem missing_post_responses :
    getPost env0 blogStore "p9" =
      ({ status := 404, body := .msg "Post not found" }, blogStore) ∧
    deletePost env0 blogStore "u1" "p9" =
      ({ status := 404, body := .msg "Post not found" }, blogStore) ∧
    likePost env0 blogStore "u1" "p9" =
      ({ status := 500, body := .text "Server Error" }, blogStore) ∧
    unlikePost env0 blogStore "u1" "p9" =
      ({ status := 500, body := .text "Server Error" }, blogStore) ∧
    commentPost env0 blogStore "u1" "p9" [("text", .str "hi")] =
      ({ status := 500, body := .text "Server Error" }, blogStore) ∧
    deleteComment env0 blogStore "u1" "p9" "c1" =
      ({ status := 500, body := .text "Server Error" }, blogStore) := by
  decide

/-- C6: for a post that `Post.findById` finds, and a `post.remove()` that does not
throw: when the requester is not the owner the answer is 401
`{msg: "User not authorized"}` and the store is left as it was; when the
requester is the owner the answer is `{msg: "Post removed"}` and the posts are
the posts before with that one post taken out, every other post in place.
The store changes exactly when the requester is the owner. -/
theorem deletePost_iff_owner
    (env : Env) (s : Store) (userId id : String) (post : Post)
    (hfind : postFindById env s id = .ok (some post))
    (hrm : env.dbFault (.postRemove post) = none) :
    (post.user ≠ userId →
      deletePost env s userId id =
        ({ status := 401, body := .msg "User not authorized" }, s)) ∧
    (post.user = userId →
      ∃ l₁ l₂, s.posts = l₁ ++ post :: l₂ ∧ (∀ q ∈ l₁, q.id ≠ id) ∧
        deletePost env s userId id =
          ({ status := 200, body := .msg "Post removed" }, { s with posts := l₁ ++ l₂ })) ∧
    ((deletePost env s userId id).2 ≠ s ↔ post.user = userId) := by
  obtain ⟨-, hf⟩ := postFindById_ok env s id _ hfind
  obtain ⟨l₁, l₂, hsplit, hbefore, hpid, herase⟩ :=
    find?_eraseP_split (fun p => p.id == id) s.posts post hf
  have hid : post.id = id := by simpa using hpid
  have h401 : post.user ≠ userId →
      deletePost env s userId id =
        ({ status := 401, body := .msg "User not authorized" }, s) := by
    intro hne
    simp [deletePost, deletePostTry, hfind, hne, bind, Except.bind, pure, Except.pure]
  have h200 : post.user = userId →
      deletePost env s userId id =
        ({ status := 200, body := .msg "Post removed" }, { s with posts := l₁ ++ l₂ }) := by
    intro heq
    simp [deletePost, deletePostTry, hfind, heq, postRemove, dbGuard, hrm, hid, herase,
      bind, Except.bind, pure, Except.pure]
  refine ⟨h401, ?_, ?_⟩
  · intro heq
    refine ⟨l₁, l₂, hsplit, ?_, h200 heq⟩
    intro q hq
    simpa using hbefore q hq
  · constructor
    · intro hchg
      by_contra hne
      exact hchg (by rw [h401 hne])
    · intro heq hsame
      rw [h200 heq] at hsame
      have hlen := congrArg (fun st => st.posts.length) hsame
      simp [hsplit] at hlen

/-- C6, at an input: `alice` deletes her post. -/
theorem deletePost_iff_owner_witness :
    ∃ l₁ l₂, blogStore.posts = l₁ ++ alicePost :: l₂ ∧ (∀ q ∈ l₁, q.id ≠ "p1") ∧
      deletePost env0 blogStore "u1" "p1" =
        ({ status := 200, body := .msg "Post removed" },
          { blogStore with posts := l₁ ++ l₂ }) :=
  (deletePost_iff_owner env0 blogStore "u1" "p1" alicePost (by decide) (by decide)).2.1
    (by decide)

/-- C9, where the code departs from it: `DELETE api/profile` by `alice` answers
`{msg: "User removed"}` and removes her profile and her user record, and her
post is still in the store. -/
theorem deleteProfile_keeps_posts :
    deleteProfile env0 blogStore "u1" =
      ({ status := 200, body := .msg "User removed" },
        { users := [], profiles := [], posts := [alicePost] }) ∧
    alicePost.user = "u1" ∧
    alicePost ∈ (deleteProfile env0 blogStore "u1").2.posts := by
  decide

/-- C10, where the code departs from it: `alice` deletes her comment `c2` of a
post on which her comment `c1` comes first; the comment removed is `c1`, the
first comment of hers, and `c2` is kept. -/
theorem deleteComment_removes_first_of_user :
    (deleteComment env0 blogStore "u1" "p1" "c2").1 =
      { status := 200,
        body := .comments
          [ { id := "c2", user := "u1", text := "second", name := "A",
              avatar := "//www.gravatar.com/avatar/a@x.com" } ] } ∧
    (deleteComment env0 blogStore "u1" "p1" "c2").2.posts =
      [ { alicePost with
          comments :=
            [ { id := "c2", user := "u1", text := "second", name := "A",
                avatar := "//www.gravatar.com/avatar/a@x.com" } ] } ] ∧
    (deleteComment env0 blogStore "u1" "p1" "c2").1.body ≠
      .comments (alicePost.comments.filter (fun comment => comment.id != "c2")) := by
  decide

/-! ## Experience and education entries -/

/-- With distinct keys, erasing at the first index of the key `k` is filtering
out the entries of key `k`. -/
theorem eraseIdx_indexOf_eq_filter {α : Type} (key : α → String) (k : String) :
    ∀ xs : List α, k ∈ xs.map key → (xs.map key).Nodup →
      xs.eraseIdx ((xs.map key).indexOf k) = xs.filter (fun x => key x != k)
  | [], h, _ => by simp at h
  | x :: xs, h, hnd => by
    simp only [List.map_cons, List.nodup_cons] at hnd
    by_cases hx : key x = k
    · subst hx
      have hall : ∀ y ∈ xs, key y ≠ key x := by
        intro y hy heq
        exact hnd.1 (heq ▸ List.mem_map_of_mem key hy)
      have hf : xs.filter (fun y => key y != key x) = xs := by
        rw [List.filter_eq_self]
        intro y hy
        simpa using hall y hy
      simp [List.indexOf_cons, hf]
    · have hmem : k ∈ xs.map key := by
        simp only [List.map_cons, List.mem_cons] at h
        rcases h with h | h
        · exact absurd h.symm hx
        · exact h
      have ih := eraseIdx_indexOf_eq_filter key k xs hmem hnd.2
      simp [List.indexOf_cons, hx, ih]

/-- The `indexOf` and `splice` of the two delete handlers, when an entry has the
key and the keys are distinct: the entries of that key are filtered out. -/
theorem splice1_present {α : Type} (key : α → String) (k : String) (xs : List α)
    (hmem : k ∈ xs.map key) (hnd : (xs.map key).Nodup) :
    splice1 xs (jsIndexOf (xs.map key) k) = xs.filter (fun x => key x != k) := by
  have hlt : (xs.map key).indexOf k < (xs.map key).length := List.indexOf_lt_length.mpr hmem
  have hlt' : (xs.map key).indexOf k < xs.length := by simpa using hlt
  unfold splice1 jsIndexOf
  rw [if_pos hlt]
  have hnn : ¬ (((xs.map key).indexOf k : Nat) : Int) < 0 := by omega
  simp only [hnn, if_false, Int.toNat_ofNat]
  rw [Nat.min_eq_left (Nat.le_of_lt hlt')]
  exact eraseIdx_indexOf_eq_filter key k xs hmem hnd

/-- The `indexOf` and `splice` of the two delete handlers, when no entry has the
key: `splice(-1, 1)` drops the last entry. -/
theorem splice1_absent {α : Type} (key : α → String) (k : String) (xs : List α)
    (hmem : k ∉ xs.map key) :
    splice1 xs (jsIndexOf (xs.map key) k) = xs.dropLast := by
  have hge : ¬ (xs.map key).indexOf k < (xs.map key).length := by
    rw [List.indexOf_lt_length]
    exact hmem
  unfold splice1 jsIndexOf
  rw [if_neg hge]
  have hs : (if (-1 : Int) < 0 then xs.length - (-1 : Int).natAbs
      else min (-1 : Int).toNat xs.length) = xs.length - 1 := by
    simp
  simp only [hs]
  cases xs with
  | nil => rfl
  | cons x xs' =>
    have hlast : (x :: xs').length - 1 + 1 = (x :: xs').length := by simp
    exact (List.dropLast_eq_eraseIdx hlast).symm

/-- The answer of `DELETE api/profile/experience/:exp_id` for a profile that
`Profile.findOne` finds, when `profile.save()` does not throw: with distinct
ids and an entry of id `expId`, the experience is the list before with that
entry filtered out; with no entry of id `expId`, it is the list before without
its last entry. -/
theorem deleteExperience_answer (env : Env) (s : Store) (userId expId : String)
    (profile : Profile)
    (hfind : profileFindOne env s userId = .ok (some profile))
    (hsave : ∀ p, env.dbFault (.profileSave p) = none) :
    (expId ∈ profile.experience.map (fun item => item.id) →
      (profile.experience.map (fun item => item.id)).Nodup →
      (deleteExperience env s userId expId).1 =
        { status := 200,
          body := .profile { profile with
            experience := profile.experience.filter (fun item => item.id != expId) } }) ∧
    (expId ∉ profile.experience.map (fun item => item.id) →
      (deleteExperience env s userId expId).1 =
        { status := 200,
          body := .profile { profile with experience := profile.experience.dropLast } }) := by
  constructor
  · intro hmem hnd
    simp [deleteExperience, deleteExperienceTry, hfind, deref, profileSave, dbGuard, hsave,
      bind, Except.bind, pure, Except.pure,
      splice1_present (fun item : Experience => item.id) expId profile.experience hmem hnd]
  · intro hmem
    simp [deleteExperience, deleteExperienceTry, hfind, deref, profileSave, dbGuard, hsave,
      bind, Except.bind, pure, Except.pure,
      splice1_absent (fun item : Experience => item.id) expId profile.experience hmem]

/-- The answer of `DELETE api/profile/education/:edu_id`, as for the experience. -/
theorem deleteEducation_answer (env : Env) (s : Store) (userId eduId : String)
    (profile : Profile)
    (hfind : profileFindOne env s userId = .ok (some profile))
    (hsave : ∀ p, env.dbFault (.profileSave p) = none) :
    (eduId ∈ profile.education.map (fun item => item.id) →
      (profile.education.map (fun item => item.id)).Nodup →
      (deleteEducation env s userId eduId).1 =
        { status := 200,
          body := .profile { profile with
            education := profile.education.filter (fun item => item.id != eduId) } }) ∧
    (eduId ∉ profile.education.map (fun item => item.id) →
      (deleteEducation env s userId eduId).1 =
        { status := 200,
          body := .profile { profile with education := profile.education.dropLast } }) := by
  constructor
  · intro hmem hnd
    simp [deleteEducation, deleteEducationTry, hfind, deref, profileSave, dbGuard, hsave,
      bind, Except.bind, pure, Except.pure,
      splice1_present (fun item : Education => item.id) eduId profile.education hmem hnd]
  · intro hmem
    simp [deleteEducation, deleteEducationTry, hfind, deref, profileSave, dbGuard, hsave,
      bind, Except.bind, pure, Except.pure,
      splice1_absent (fun item : Education => item.id) eduId profile.education hmem]

/-- C11, where the code departs from it: `alice` deletes the experience `x9` and
the education `d9`, ids that no entry of her profile has. `indexOf` returns
`-1`, and `splice(-1, 1)` takes out the last entry: her only experience `x1`
and her only education `d1` are removed, where a filter on the id would have
left both lists as they were. -/
theorem deleteExperience_absent_id_removes_last :
    deleteExperience env0 resumeStore "u1" "x9" =
      ({ status := 200, body := .profile { aliceProfile with experience := [] } },
        { resumeStore with profiles := [{ aliceProfile with experience := [] }] }) ∧
    aliceProfile.experience.filter (fun item => item.id != "x9") = aliceProfile.experience ∧
    deleteEducation env0 resumeStore "u1" "d9" =
      ({ status := 200, body := .profile { aliceProfile with education := [] } },
        { resumeStore with profiles := [{ aliceProfile with education := [] }] }) ∧
    aliceProfile.education.filter (fun item => item.id != "d9") = aliceProfile.education := by
  decide

end MernSocial
